import Mathlib

/-!
Shallow embedding of the chat-to-recommendation pipeline of the
plan-outings backend: the Gemini-backed `RecommendationService`
(routes/suggestions.js) with its deterministic fallbacks, the Google
Places `PlacesService` (places.js), and the `/api/recommendations`
route's search loop.  Generative-backend calls are modelled as an
abstract optional response string plus an abstract JSON parser; `none`
anywhere on that path is the "backend raised or response unparsable"
failure class that the code catches.
-/

namespace PlanOutings

/-- JS `needle` leading `hay`: character-wise comparison (first argument
is the needle). -/
def leadsList : List Char → List Char → Bool
  | [], _ => true
  | _ :: _, [] => false
  | a :: as, b :: bs => a == b && leadsList as bs

/-- JS `hay.includes(needle)` on character lists. -/
def containsSub : List Char → List Char → Bool
  | [], needle => needle.isEmpty
  | c :: t, needle => leadsList needle (c :: t) || containsSub t needle

/-- JS `String.prototype.includes`. -/
def strContains (hay needle : String) : Bool :=
  containsSub hay.toList needle.toList

/-- JS `Array.prototype.includes` on string arrays. -/
def listIncludes (l : List String) (a : String) : Bool :=
  l.any (fun x => x == a)

/-- A chat message as validated by the route schema. -/
structure ChatMessage where
  sender : String
  content : String
deriving Repr, DecidableEq

/-- `preferences` sub-object of a `PreferenceProfile`. -/
structure Preferences where
  budget : String
  atmosphere : String
  cuisine : List String
  activities : List String
deriving Repr, DecidableEq

/-- `groupInfo` sub-object of a `PreferenceProfile`. -/
structure GroupInfo where
  size : String
  demographics : String
deriving Repr, DecidableEq

/-- Structured analysis produced by `analyzeChatMessages`. -/
structure PreferenceProfile where
  interests : List String
  placeTypes : List String
  preferences : Preferences
  constraints : List String
  groupInfo : GroupInfo
  keywords : List String
  summary : String
deriving Repr, DecidableEq

/-- Keyword table from `fallbackAnalysis` (suggestions.js). -/
def foodKeywords : List String :=
  ["food", "eat", "restaurant", "dinner", "lunch", "breakfast", "cafe",
   "bar", "drink", "pizza", "burger", "sushi", "italian", "chinese",
   "mexican", "thai", "indian"]

/-- Keyword table from `fallbackAnalysis` (suggestions.js). -/
def activityKeywords : List String :=
  ["fun", "activity", "entertainment", "movie", "theater", "museum",
   "park", "beach", "hiking", "shopping", "mall", "game", "sports",
   "concert", "show"]

/-- Keyword table from `fallbackAnalysis` (suggestions.js). -/
def attractionKeywords : List String :=
  ["visit", "see", "tourist", "attraction", "landmark", "monument",
   "gallery", "exhibition", "zoo", "aquarium", "theme park"]

/-- Keyword table from `fallbackAnalysis` (suggestions.js). -/
def budgetKeywords : List String :=
  ["cheap", "expensive", "budget", "affordable", "luxury", "fancy",
   "casual", "formal"]

/-- JS `toLowerCase`, character by character. -/
def lowerStr (s : String) : String :=
  String.mk (s.data.map Char.toLower)

/-- `messages.map(msg => msg.content.toLowerCase()).join(' ')`. -/
def chatBuffer (messages : List ChatMessage) : String :=
  String.intercalate " " (messages.map (fun m => lowerStr m.content))

/-- `fallbackAnalysis` from suggestions.js: deterministic keyword-based
analysis used when the generative backend fails. -/
def fallbackAnalysis (messages : List ChatMessage) : PreferenceProfile :=
  let chatText := chatBuffer messages
  let foodMatches := foodKeywords.filter (fun k => strContains chatText k)
  let activityMatches := activityKeywords.filter (fun k => strContains chatText k)
  let attractionMatches := attractionKeywords.filter (fun k => strContains chatText k)
  let budgetMatches := budgetKeywords.filter (fun k => strContains chatText k)
  let interests0 :=
    (if foodMatches.length > 0 then ["food", "dining"] else []) ++
    (if activityMatches.length > 0 then ["activities", "entertainment"] else []) ++
    (if attractionMatches.length > 0 then ["sightseeing", "attractions"] else [])
  let placeTypes0 :=
    (if foodMatches.length > 0 then ["restaurant", "food"] else []) ++
    (if activityMatches.length > 0 then ["amusement_park", "entertainment"] else []) ++
    (if attractionMatches.length > 0 then ["tourist_attraction", "museum"] else [])
  let keywords0 :=
    (if foodMatches.length > 0 then foodMatches else []) ++
    (if activityMatches.length > 0 then activityMatches else []) ++
    (if attractionMatches.length > 0 then attractionMatches else [])
  let budget :=
    if listIncludes budgetMatches "cheap" || listIncludes budgetMatches "affordable" then
      "low"
    else if listIncludes budgetMatches "expensive" || listIncludes budgetMatches "luxury"
        || listIncludes budgetMatches "fancy" then
      "high"
    else
      "medium"
  let atmosphere :=
    if listIncludes budgetMatches "formal" || listIncludes budgetMatches "fancy" then
      "formal"
    else
      "casual"
  let interests :=
    if interests0.length = 0 then interests0 ++ ["food", "entertainment"] else interests0
  let placeTypes :=
    if interests0.length = 0 then placeTypes0 ++ ["restaurant", "tourist_attraction"]
    else placeTypes0
  let keywords :=
    if interests0.length = 0 then keywords0 ++ ["fun", "good food"] else keywords0
  { interests := if interests.length > 0 then interests else ["food", "entertainment"]
    placeTypes := if placeTypes.length > 0 then placeTypes
                  else ["restaurant", "tourist_attraction"]
    preferences :=
      { budget := budget
        atmosphere := atmosphere
        cuisine := if foodMatches.length > 0 then foodMatches.take 3 else ["any"]
        activities := if activityMatches.length > 0 then activityMatches.take 3
                      else ["general"] }
    constraints := []
    groupInfo := { size := "small group", demographics := "mixed ages" }
    keywords := if keywords.length > 0 then keywords.take 5
                else ["fun", "good food", "interesting"]
    summary := "Group looking for " ++ String.intercalate " and " interests ++
               " based on chat conversation" }

/-- `analyzeChatMessages`: the generative call is abstracted as an
optional response text (`none` = the call threw) and a parser (`none` =
`JSON.parse`/shape failure); both failure classes fall back to
`fallbackAnalysis`. -/
def analyzeChatMessages (resp : Option String)
    (parse : String → Option PreferenceProfile)
    (messages : List ChatMessage) : PreferenceProfile :=
  match resp with
  | none => fallbackAnalysis messages
  | some t =>
    match parse t with
    | some a => a
    | none => fallbackAnalysis messages

/-- One entry of `SearchPlan.searchStrategies`. -/
structure SearchStrategy where
  type : String
  value : String
  priority : Nat
  reason : String
deriving Repr, DecidableEq

/-- `filters` sub-object of a `SearchPlan`. -/
structure Filters where
  priceLevel : String
  rating : String
  openNow : Bool
deriving Repr, DecidableEq

/-- Recommendation plan produced by `generateRecommendations`. -/
structure SearchPlan where
  searchStrategies : List SearchStrategy
  keywords : List String
  filters : Filters
  recommendationReason : String
  alternativeOptions : List String
  tips : List String
deriving Repr, DecidableEq

/-- `fallbackRecommendations` from suggestions.js: deterministic plan
derived from the analysis when the generative backend fails.  JS `x || d`
on the string `analysis.summary` treats the empty string as falsy. -/
def fallbackRecommendations (analysis : PreferenceProfile) : SearchPlan :=
  let base := analysis.placeTypes.enum.map (fun p =>
    { type := "place_type"
      value := p.2
      priority := p.1 + 1
      reason := "Based on chat analysis: " ++ analysis.summary : SearchStrategy })
  let withKeyword :=
    match analysis.keywords with
    | [] => base
    | k :: _ =>
      base ++ [{ type := "keyword"
                 value := k
                 priority := analysis.placeTypes.length + 1
                 reason := "Keyword from chat: " ++ k : SearchStrategy }]
  let searchStrategies :=
    if withKeyword.length = 0 then
      [{ type := "place_type"
         value := "restaurant"
         priority := 1
         reason := "Default recommendation for group dining" : SearchStrategy }]
    else withKeyword
  { searchStrategies := searchStrategies
    keywords := analysis.keywords
    filters :=
      { priceLevel :=
          if analysis.preferences.budget == "low" then "1-2"
          else if analysis.preferences.budget == "high" then "4-5"
          else "1-3"
        rating := "3.5+"
        openNow := true }
    recommendationReason :=
      if analysis.summary.isEmpty then
        "General recommendations based on chat conversation"
      else analysis.summary
    alternativeOptions := analysis.interests
    tips := ["Check opening hours", "Make reservations if needed"] }

/-- `generateRecommendations`: abstract generative call plus parser, with
`fallbackRecommendations` on either failure. -/
def generateRecommendations (resp : Option String)
    (parse : String → Option SearchPlan)
    (analysis : PreferenceProfile) : SearchPlan :=
  match resp with
  | none => fallbackRecommendations analysis
  | some t =>
    match parse t with
    | some r => r
    | none => fallbackRecommendations analysis

/-- Raw place object returned by the nearby-search backend; every field
may be absent (JS `undefined`).  Numbers are modelled as rationals and
opaque objects (geometry, photos, reviews) as strings. -/
structure RawPlace where
  place_id : Option String
  name : Option String
  vicinity : Option String
  geometry : Option String
  rating : Option Rat
  user_ratings_total : Option Rat
  price_level : Option Rat
  types : Option (List String)
  photos : Option (List String)
  business_status : Option String
deriving Repr, DecidableEq

/-- Raw detail object (`response.data.result`) returned by the
place-details backend. -/
structure RawDetail where
  place_id : Option String
  name : Option String
  formatted_address : Option String
  geometry : Option String
  rating : Option Rat
  user_ratings_total : Option Rat
  price_level : Option Rat
  types : Option (List String)
  photos : Option (List String)
  opening_hours : Option String
  website : Option String
  formatted_phone_number : Option String
  reviews : Option (List String)
  business_status : Option String
deriving Repr, DecidableEq

/-- JS `x || 0` on an optional number. -/
def numOrZero (x : Option Rat) : Rat :=
  match x with
  | some v => if v = 0 then 0 else v
  | none => 0

/-- JS `x || null` on an optional number (`0` is falsy). -/
def numOrNull (x : Option Rat) : Option Rat :=
  match x with
  | some v => if v = 0 then none else some v
  | none => none

/-- JS `x || d` on an optional string (the empty string is falsy). -/
def strOrDefault (x : Option String) (d : String) : String :=
  match x with
  | some s => if s.isEmpty then d else s
  | none => d

/-- JS `x || null` on an optional string. -/
def strOrNull (x : Option String) : Option String :=
  match x with
  | some s => if s.isEmpty then none else some s
  | none => none

/-- Place object after enrichment: either the `{...place, ...details}`
merge or the basic projection of `formatBasicPlace`. -/
structure EnrichedPlace where
  place_id : Option String
  name : Option String
  vicinity : Option String
  formatted_address : Option String
  geometry : Option String
  rating : Rat
  user_ratings_total : Rat
  price_level : Option Rat
  types : List String
  photos : List String
  opening_hours : Option String
  website : Option String
  formatted_phone_number : Option String
  reviews : List String
  business_status : String
  original_rating : Option Rat
  original_user_ratings_total : Option Rat
deriving Repr, DecidableEq

/-- `formatBasicPlace` from places.js: basic projection with explicit
defaults; fields the projection does not set are absent. -/
def formatBasicPlace (place : RawPlace) : EnrichedPlace :=
  { place_id := place.place_id
    name := place.name
    vicinity := place.vicinity
    formatted_address := place.vicinity
    geometry := place.geometry
    rating := numOrZero place.rating
    user_ratings_total := numOrZero place.user_ratings_total
    price_level := numOrNull place.price_level
    types := (place.types).getD []
    photos := (place.photos).getD []
    opening_hours := none
    website := none
    formatted_phone_number := none
    reviews := []
    business_status := strOrDefault place.business_status "OPERATIONAL"
    original_rating := none
    original_user_ratings_total := none }

/-- `formatPlaceDetails` from places.js applied to the raw detail result.
Object-valued fields (`geometry`, `opening_hours`, `types`, `photos`,
`reviews`) are always truthy in JS when present, so `|| null` / `|| []`
only fires on absence for them. -/
structure PlaceDetails where
  place_id : Option String
  name : Option String
  formatted_address : Option String
  geometry : Option String
  rating : Rat
  user_ratings_total : Rat
  price_level : Option Rat
  types : List String
  photos : List String
  opening_hours : Option String
  website : Option String
  formatted_phone_number : Option String
  reviews : List String
  business_status : String
deriving Repr, DecidableEq

/-- `formatPlaceDetails` from places.js. -/
def formatPlaceDetails (d : RawDetail) : PlaceDetails :=
  { place_id := d.place_id
    name := d.name
    formatted_address := d.formatted_address
    geometry := d.geometry
    rating := numOrZero d.rating
    user_ratings_total := numOrZero d.user_ratings_total
    price_level := numOrNull d.price_level
    types := (d.types).getD []
    photos := (d.photos).getD []
    opening_hours := d.opening_hours
    website := strOrNull d.website
    formatted_phone_number := strOrNull d.formatted_phone_number
    reviews := (d.reviews).getD []
    business_status := strOrDefault d.business_status "OPERATIONAL" }

/-- `getPlaceDetails`: the details backend is an abstract function;
`none` models a thrown error or a non-OK status. -/
def getPlaceDetails (detailsBackend : String → Option RawDetail)
    (placeId : String) : Option PlaceDetails :=
  (detailsBackend placeId).map formatPlaceDetails

/-- The `{...place, ...details, original_rating, original_user_ratings_total}`
spread of `enhancePlaceDetails`: detail keys overwrite basic keys;
`vicinity` exists only on the basic place. -/
def mergePlaceDetails (place : RawPlace) (d : PlaceDetails) : EnrichedPlace :=
  { place_id := d.place_id
    name := d.name
    vicinity := place.vicinity
    formatted_address := d.formatted_address
    geometry := d.geometry
    rating := d.rating
    user_ratings_total := d.user_ratings_total
    price_level := d.price_level
    types := d.types
    photos := d.photos
    opening_hours := d.opening_hours
    website := d.website
    formatted_phone_number := d.formatted_phone_number
    reviews := d.reviews
    business_status := d.business_status
    original_rating := place.rating
    original_user_ratings_total := place.user_ratings_total }

/-- `enhancePlaceDetails` from places.js: fetch details when `place_id`
is truthy, merging on success and degrading to `formatBasicPlace` when
the fetch fails or the id is absent. -/
def enhancePlaceDetails (detailsBackend : String → Option RawDetail)
    (place : RawPlace) : EnrichedPlace :=
  match place.place_id with
  | some pid =>
    if pid.isEmpty then formatBasicPlace place
    else
      match getPlaceDetails detailsBackend pid with
      | some d => mergePlaceDetails place d
      | none => formatBasicPlace place
  | none => formatBasicPlace place

/-- `searchNearbyPlaces` from places.js: nearby-search backend call
(abstract over type and keyword; `none` = thrown error or bad status),
result cap applied only when `maxResults` is truthy, then per-place
enhancement. -/
def searchNearbyPlaces (backend : String → String → Option (List RawPlace))
    (detailsBackend : String → Option RawDetail)
    (ty keyword : String) (maxResults : Nat) : Option (List EnrichedPlace) :=
  match backend ty keyword with
  | none => none
  | some results =>
    let limited :=
      if maxResults ≠ 0 && results.length > maxResults then results.take maxResults
      else results
    some (limited.map (enhancePlaceDetails detailsBackend))

/-- The per-strategy call of the `/api/recommendations` search loop:
`type` filter is the strategy value, keyword filter is the plan's
keywords joined by spaces, cap is `floor(20 / numberOfStrategies)`. -/
def strategyResults (backend : String → String → Option (List RawPlace))
    (detailsBackend : String → Option RawDetail)
    (plan : SearchPlan) (s : SearchStrategy) : List EnrichedPlace :=
  (searchNearbyPlaces backend detailsBackend s.value
    (String.intercalate " " plan.keywords)
    (20 / plan.searchStrategies.length)).getD []

/-- The `for`/`try` loop of `/api/recommendations`: a failing strategy is
caught and contributes nothing; results are pushed in strategy order. -/
def runStrategies (call : SearchStrategy → Option (List EnrichedPlace)) :
    List SearchStrategy → List EnrichedPlace
  | [] => []
  | s :: rest =>
    (match call s with
     | none => []
     | some ps => ps) ++ runStrategies call rest

/-- The whole search step of `/api/recommendations`. -/
def searchLoop (backend : String → String → Option (List RawPlace))
    (detailsBackend : String → Option RawDetail)
    (plan : SearchPlan) : List EnrichedPlace :=
  runStrategies
    (fun s => searchNearbyPlaces backend detailsBackend s.value
      (String.intercalate " " plan.keywords)
      (20 / plan.searchStrategies.length))
    plan.searchStrategies

/-- One per-place annotation parsed from the personalization backend's
JSON array; any field may be absent. -/
structure Annot where
  place_id : Option String
  personalizedDescription : Option String
  matchScore : Option Rat
  highlights : Option (List String)
  groupAppeal : Option String
deriving Repr, DecidableEq

/-- `{...place, personalizedDescription, matchScore, highlights,
groupAppeal}` output of `personalizePlaceDescriptions`. -/
structure PersonalizedPlace where
  base : EnrichedPlace
  personalizedDescription : Option String
  matchScore : Rat
  highlights : List String
  groupAppeal : String
deriving Repr, DecidableEq

/-- JS `x || 0.5` on an optional number (`0` is falsy and is coerced to
the default). -/
def scoreOrHalf (x : Option Rat) : Rat :=
  match x with
  | some v => if v = 0 then (0.5 : Rat) else v
  | none => (0.5 : Rat)

/-- JS truthiness of an optional string. -/
def strTruthy (x : Option String) : Bool :=
  match x with
  | some s => !s.isEmpty
  | none => false

/-- Success-path merge of `personalizePlaceDescriptions`: look up the
annotation matching this place's id (`===`, so two absent ids match) and
merge with `||` defaults. -/
def mergeAnnot (anns : List Annot) (place : EnrichedPlace) :
    PersonalizedPlace :=
  let personalized := anns.find? (fun p => p.place_id == place.place_id)
  let annDesc := personalized.bind (fun a => a.personalizedDescription)
  { base := place
    personalizedDescription := if strTruthy annDesc then annDesc else place.name
    matchScore := scoreOrHalf (personalized.bind (fun a => a.matchScore))
    highlights := (personalized.bind (fun a => a.highlights)).getD []
    groupAppeal :=
      strOrDefault (personalized.bind (fun a => a.groupAppeal))
        "Good option for groups" }

/-- Catch-branch of `personalizePlaceDescriptions`: basic description
defaults for every place. -/
def basicPersonalized (place : EnrichedPlace) : PersonalizedPlace :=
  { base := place
    personalizedDescription := place.name
    matchScore := (0.5 : Rat)
    highlights := []
    groupAppeal := "Good option for groups" }

/-- `personalizePlaceDescriptions` from suggestions.js; the generative
call (whose prompt only sees `places.slice(0, 5)`) is abstracted as an
optional response plus a parser for the annotation array. -/
def personalizePlaceDescriptions (resp : Option String)
    (parse : String → Option (List Annot))
    (places : List EnrichedPlace) (_analysis : PreferenceProfile) :
    List PersonalizedPlace :=
  match resp with
  | none => places.map basicPersonalized
  | some t =>
    match parse t with
    | none => places.map basicPersonalized
    | some anns => places.map (mergeAnnot anns)

/-- Activity suggestion entity. -/
structure ActivitySuggestion where
  activity : String
  description : String
  duration : String
  cost : String
  groupSize : String
  whyRecommended : String
  tips : List String
deriving Repr, DecidableEq

/-- `fallbackActivities` from suggestions.js: fixed two-item list. -/
def fallbackActivities (_analysis : PreferenceProfile) : List ActivitySuggestion :=
  [{ activity := "Group Dining"
     description := "Find a restaurant that can accommodate your group size"
     duration := "1-2 hours"
     cost := "$$"
     groupSize := "2-8 people"
     whyRecommended := "Essential for group outings"
     tips := ["Make reservations", "Check group discounts"] },
   { activity := "Local Attractions"
     description := "Visit popular local attractions and landmarks"
     duration := "2-4 hours"
     cost := "$$$"
     groupSize := "2-10 people"
     whyRecommended := "Great for group photos and memories"
     tips := ["Check group rates", "Plan for crowds"] }]

/-- `generateActivitySuggestions` with the abstract backend. -/
def generateActivitySuggestions (resp : Option String)
    (parse : String → Option (List ActivitySuggestion))
    (analysis : PreferenceProfile) : List ActivitySuggestion :=
  match resp with
  | none => fallbackActivities analysis
  | some t =>
    match parse t with
    | some a => a
    | none => fallbackActivities analysis

/-- The successful JSON response of `POST /api/recommendations`. -/
structure PipelineResponse where
  success : Bool
  analysis : PreferenceProfile
  recommendations : SearchPlan
  places : List PersonalizedPlace
  activities : List ActivitySuggestion
  totalPlaces : Nat
deriving Repr

/-- The `/api/recommendations` handler after validation: analyze, plan,
search loop, personalize, activities, then the `success: true` response
with `metadata.totalPlaces`. -/
def recommendationsEndpoint
    (analyzeResp : Option String) (analyzeParse : String → Option PreferenceProfile)
    (planResp : Option String) (planParse : String → Option SearchPlan)
    (backend : String → String → Option (List RawPlace))
    (detailsBackend : String → Option RawDetail)
    (persResp : Option String) (persParse : String → Option (List Annot))
    (actResp : Option String) (actParse : String → Option (List ActivitySuggestion))
    (messages : List ChatMessage) : PipelineResponse :=
  let analysis := analyzeChatMessages analyzeResp analyzeParse messages
  let recommendations := generateRecommendations planResp planParse analysis
  let searchResults := searchLoop backend detailsBackend recommendations
  let personalizedPlaces :=
    personalizePlaceDescriptions persResp persParse searchResults analysis
  let activities := generateActivitySuggestions actResp actParse analysis
  { success := true
    analysis := analysis
    recommendations := recommendations
    places := personalizedPlaces
    activities := activities
    totalPlaces := personalizedPlaces.length }

/-! Helper lemmas shared by the claim theorems. -/

theorem listIncludes_eq_true_iff (l : List String) (a : String) :
    listIncludes l a = true ↔ a ∈ l := by
  constructor
  · intro h
    obtain ⟨x, hx, e⟩ := List.any_eq_true.mp h
    exact (beq_iff_eq.mp e) ▸ hx
  · intro h
    exact List.any_eq_true.mpr ⟨a, h, beq_iff_eq.mpr rfl⟩

theorem listIncludes_filter (p : String → Bool) (a : String) (l : List String) :
    listIncludes (l.filter p) a = (listIncludes l a && p a) := by
  by_cases hmem : a ∈ l.filter p
  · have h2 := List.mem_filter.mp hmem
    have e1 : listIncludes (l.filter p) a = true := (listIncludes_eq_true_iff _ _).mpr hmem
    have e2 : listIncludes l a = true := (listIncludes_eq_true_iff _ _).mpr h2.1
    rw [e1, e2, h2.2]
    rfl
  · have e1 : listIncludes (l.filter p) a = false := by
      cases h : listIncludes (l.filter p) a with
      | false => rfl
      | true => exact absurd ((listIncludes_eq_true_iff _ _).mp h) hmem
    rw [e1]
    cases hl : listIncludes l a with
    | false => rfl
    | true =>
      cases hp : p a with
      | false => rfl
      | true =>
        exact absurd (List.mem_filter.mpr ⟨(listIncludes_eq_true_iff _ _).mp hl, hp⟩) hmem

theorem fallbackAnalysis_budget_eq (messages : List ChatMessage) :
    (fallbackAnalysis messages).preferences.budget =
      (if strContains (chatBuffer messages) "cheap"
          || strContains (chatBuffer messages) "affordable" then "low"
       else if strContains (chatBuffer messages) "expensive"
          || strContains (chatBuffer messages) "luxury"
          || strContains (chatBuffer messages) "fancy" then "high"
       else "medium") := by
  have hc : listIncludes budgetKeywords "cheap" = true := by decide
  have ha : listIncludes budgetKeywords "affordable" = true := by decide
  have he : listIncludes budgetKeywords "expensive" = true := by decide
  have hl : listIncludes budgetKeywords "luxury" = true := by decide
  have hf : listIncludes budgetKeywords "fancy" = true := by decide
  dsimp only [fallbackAnalysis]
  simp only [listIncludes_filter, hc, ha, he, hl, hf, Bool.true_and]

theorem fallbackAnalysis_atmosphere_eq (messages : List ChatMessage) :
    (fallbackAnalysis messages).preferences.atmosphere =
      (if strContains (chatBuffer messages) "formal"
          || strContains (chatBuffer messages) "fancy" then "formal"
       else "casual") := by
  have hfo : listIncludes budgetKeywords "formal" = true := by decide
  have hf : listIncludes budgetKeywords "fancy" = true := by decide
  dsimp only [fallbackAnalysis]
  simp only [listIncludes_filter, hfo, hf, Bool.true_and]

theorem analyze_fail_eq (resp : Option String)
    (parse : String → Option PreferenceProfile) (messages : List ChatMessage)
    (hfail : ∀ t, resp = some t → parse t = none) :
    analyzeChatMessages resp parse messages = fallbackAnalysis messages := by
  cases resp with
  | none => rfl
  | some t =>
    simp only [analyzeChatMessages, hfail t rfl]

theorem recommend_fail_eq (resp : Option String)
    (parse : String → Option SearchPlan) (analysis : PreferenceProfile)
    (hfail : ∀ t, resp = some t → parse t = none) :
    generateRecommendations resp parse analysis = fallbackRecommendations analysis := by
  cases resp with
  | none => rfl
  | some t =>
    simp only [generateRecommendations, hfail t rfl]

theorem ite_self_ne_nil (l d : List String) (hd : d ≠ []) :
    (if l.length > 0 then l else d) ≠ [] := by
  split
  · next h => exact List.ne_nil_of_length_pos h
  · exact hd

theorem ite_take_ne_nil (l d : List String) (n : Nat) (hn : 0 < n) (hd : d ≠ []) :
    (if l.length > 0 then l.take n else d) ≠ [] := by
  split
  · next h =>
    apply List.ne_nil_of_length_pos
    rw [List.length_take]
    omega
  · exact hd

theorem fallbackAnalysis_wellFormed (messages : List ChatMessage) :
    (fallbackAnalysis messages).interests ≠ []
    ∧ (fallbackAnalysis messages).placeTypes ≠ []
    ∧ (fallbackAnalysis messages).keywords ≠ []
    ∧ (fallbackAnalysis messages).preferences.cuisine ≠ []
    ∧ (fallbackAnalysis messages).preferences.activities ≠ [] := by
  dsimp only [fallbackAnalysis]
  exact ⟨ite_self_ne_nil _ _ (by simp), ite_self_ne_nil _ _ (by simp),
    ite_take_ne_nil _ _ 5 (by omega) (by simp),
    ite_take_ne_nil _ _ 3 (by omega) (by simp),
    ite_take_ne_nil _ _ 3 (by omega) (by simp)⟩

/-- C7: in the PreferenceExtractor fallback the derived budget is "low"
when the lower-cased concatenated buffer contains "cheap" or
"affordable", "high" when it contains "expensive", "luxury" or "fancy",
and "medium" otherwise; the derived atmosphere is "formal" when the
buffer contains "formal" or "fancy", else "casual". -/
theorem fallback_budget_atmosphere_rules (messages : List ChatMessage) :
    (fallbackAnalysis messages).preferences.budget =
      (if strContains (chatBuffer messages) "cheap"
          || strContains (chatBuffer messages) "affordable" then "low"
       else if strContains (chatBuffer messages) "expensive"
          || strContains (chatBuffer messages) "luxury"
          || strContains (chatBuffer messages) "fancy" then "high"
       else "medium")
    ∧ (fallbackAnalysis messages).preferences.atmosphere =
      (if strContains (chatBuffer messages) "formal"
          || strContains (chatBuffer messages) "fancy" then "formal"
       else "casual") :=
  ⟨fallbackAnalysis_budget_eq messages, fallbackAnalysis_atmosphere_eq messages⟩

/-- C9: the low-budget check takes precedence — a transcript whose
buffer contains both a low-budget term and a high-budget term derives
budget "low", never "high". -/
theorem fallback_budget_low_precedence (messages : List ChatMessage)
    (hlow : strContains (chatBuffer messages) "cheap" = true
            ∨ strContains (chatBuffer messages) "affordable" = true)
    (_hhigh : strContains (chatBuffer messages) "expensive" = true
            ∨ strContains (chatBuffer messages) "luxury" = true
            ∨ strContains (chatBuffer messages) "fancy" = true) :
    (fallbackAnalysis messages).preferences.budget = "low" := by
  rw [fallbackAnalysis_budget_eq]
  rcases hlow with h | h <;> simp [h]

/-- Witness for C9 at the transcript "cheap but fancy dinner". -/
theorem fallback_budget_low_precedence_witness :
    strContains (chatBuffer [⟨"u", "cheap but fancy dinner"⟩]) "cheap" = true
    ∧ strContains (chatBuffer [⟨"u", "cheap but fancy dinner"⟩]) "fancy" = true
    ∧ (fallbackAnalysis [⟨"u", "cheap but fancy dinner"⟩]).preferences.budget = "low" :=
  ⟨by decide, by decide,
    fallback_budget_low_precedence [⟨"u", "cheap but fancy dinner"⟩]
      (Or.inl (by decide)) (Or.inr (Or.inr (by decide)))⟩

/-- C1: whenever the generative backend raised or its response fails to
parse, `analyzeChatMessages` still returns a well-formed
`PreferenceProfile` with `budget` in {low, medium, high} (and the other
required fields populated and non-empty). -/
theorem analyze_never_fails_valid_profile (messages : List ChatMessage)
    (resp : Option String) (parse : String → Option PreferenceProfile)
    (hfail : ∀ t, resp = some t → parse t = none) :
    ((analyzeChatMessages resp parse messages).preferences.budget = "low"
      ∨ (analyzeChatMessages resp parse messages).preferences.budget = "medium"
      ∨ (analyzeChatMessages resp parse messages).preferences.budget = "high")
    ∧ (analyzeChatMessages resp parse messages).interests ≠ []
    ∧ (analyzeChatMessages resp parse messages).placeTypes ≠ []
    ∧ (analyzeChatMessages resp parse messages).keywords ≠ []
    ∧ (analyzeChatMessages resp parse messages).preferences.cuisine ≠ []
    ∧ (analyzeChatMessages resp parse messages).preferences.activities ≠ [] := by
  rw [analyze_fail_eq resp parse messages hfail]
  refine ⟨?_, fallbackAnalysis_wellFormed messages⟩
  rw [fallbackAnalysis_budget_eq]
  split
  · exact Or.inl rfl
  · split
    · exact Or.inr (Or.inr rfl)
    · exact Or.inr (Or.inl rfl)

/-- Witness for C1: backend raised (`resp = none`) on an empty chat. -/
theorem analyze_never_fails_valid_profile_witness :
    ((analyzeChatMessages none (fun _ => none) []).preferences.budget = "low"
      ∨ (analyzeChatMessages none (fun _ => none) []).preferences.budget = "medium"
      ∨ (analyzeChatMessages none (fun _ => none) []).preferences.budget = "high")
    ∧ (analyzeChatMessages none (fun _ => none) []).interests ≠ []
    ∧ (analyzeChatMessages none (fun _ => none) []).placeTypes ≠ []
    ∧ (analyzeChatMessages none (fun _ => none) []).keywords ≠ []
    ∧ (analyzeChatMessages none (fun _ => none) []).preferences.cuisine ≠ []
    ∧ (analyzeChatMessages none (fun _ => none) []).preferences.activities ≠ [] :=
  analyze_never_fails_valid_profile [] none (fun _ => none)
    (fun _ h => Option.noConfusion h)

/-- C8: with a failing backend on both runs, the extractor and planner
fallbacks give identical outputs on the same chat input — even when the
two runs fail differently (thrown error versus unparsable response). -/
theorem fallback_idempotent (messages : List ChatMessage)
    (r1 r2 s1 s2 : Option String)
    (p1 p2 : String → Option PreferenceProfile)
    (q1 q2 : String → Option SearchPlan)
    (h1 : ∀ t, r1 = some t → p1 t = none)
    (h2 : ∀ t, r2 = some t → p2 t = none)
    (h3 : ∀ t, s1 = some t → q1 t = none)
    (h4 : ∀ t, s2 = some t → q2 t = none) :
    analyzeChatMessages r1 p1 messages = analyzeChatMessages r2 p2 messages
    ∧ generateRecommendations s1 q1 (analyzeChatMessages r1 p1 messages)
      = generateRecommendations s2 q2 (analyzeChatMessages r2 p2 messages) := by
  rw [analyze_fail_eq r1 p1 messages h1, analyze_fail_eq r2 p2 messages h2]
  exact ⟨rfl, by rw [recommend_fail_eq _ _ _ h3, recommend_fail_eq _ _ _ h4]⟩

/-- Witness for C8: run 1 throws, run 2 returns unparsable text. -/
theorem fallback_idempotent_witness :
    analyzeChatMessages none (fun _ => none) [⟨"a", "pizza"⟩]
      = analyzeChatMessages (some "not json") (fun _ => none) [⟨"a", "pizza"⟩]
    ∧ generateRecommendations (some "garbage") (fun _ => none)
        (analyzeChatMessages none (fun _ => none) [⟨"a", "pizza"⟩])
      = generateRecommendations none (fun _ => none)
        (analyzeChatMessages (some "not json") (fun _ => none) [⟨"a", "pizza"⟩]) :=
  fallback_idempotent [⟨"a", "pizza"⟩] none (some "not json") (some "garbage") none
    (fun _ => none) (fun _ => none) (fun _ => none) (fun _ => none)
    (fun _ h => Option.noConfusion h) (fun _ _ => rfl)
    (fun _ _ => rfl) (fun _ h => Option.noConfusion h)

/-- The fields of a search strategy that C2 describes: type, value and
priority. -/
def stratKey (s : SearchStrategy) : String × String × Nat :=
  (s.type, s.value, s.priority)

/-- C2: the StrategyPlanner fallback emits one `place_type` strategy per
`placeTypes` entry with 1-based priority, then one `keyword` strategy
with value `keywords[0]` and priority `placeTypes.length + 1` when
`keywords` is non-empty, and a single default restaurant strategy when
both are empty; `searchStrategies` is never empty. -/
theorem planner_fallback_strategies (p : PreferenceProfile) :
    ((fallbackRecommendations p).searchStrategies.map stratKey =
      (if p.placeTypes.isEmpty && p.keywords.isEmpty then
        [("place_type", "restaurant", 1)]
       else
        p.placeTypes.enum.map (fun q => ("place_type", q.2, q.1 + 1)) ++
          (match p.keywords with
           | [] => []
           | k :: _ => [("keyword", k, p.placeTypes.length + 1)])))
    ∧ (fallbackRecommendations p).searchStrategies ≠ [] := by
  dsimp only [fallbackRecommendations]
  rcases hk : p.keywords with _ | ⟨k, ks⟩
  · rcases hpt : p.placeTypes with _ | ⟨t, ts⟩
    · simp [stratKey]
    · simp [stratKey, List.map_map]
  · constructor
    · simp [stratKey, List.map_map]
    · simp

/-- Witness for C2: the fallback plan of an empty chat has a non-empty
strategy list. -/
theorem planner_fallback_strategies_witness :
    (fallbackRecommendations (fallbackAnalysis [])).searchStrategies ≠ [] :=
  (planner_fallback_strategies (fallbackAnalysis [])).2

theorem runStrategies_none (call : SearchStrategy → Option (List EnrichedPlace))
    (h : ∀ s, call s = none) (l : List SearchStrategy) :
    runStrategies call l = [] := by
  induction l with
  | nil => rfl
  | cons s rest ih => simp [runStrategies, h s, ih]

theorem searchLoop_allFail (backend : String → String → Option (List RawPlace))
    (detailsBackend : String → Option RawDetail) (plan : SearchPlan)
    (hfail : ∀ ty kw, backend ty kw = none) :
    searchLoop backend detailsBackend plan = [] := by
  apply runStrategies_none
  intro s
  simp [searchNearbyPlaces, hfail]

theorem personalize_nil (resp : Option String)
    (parse : String → Option (List Annot)) (analysis : PreferenceProfile) :
    personalizePlaceDescriptions resp parse [] analysis = [] := by
  rcases resp with _ | t
  · rfl
  · dsimp only [personalizePlaceDescriptions]
    rcases parse t with _ | anns <;> rfl

/-- C3: when every per-strategy place-search call errors, the gather
loop returns `[]` without aborting, and the pipeline response still has
`places = []` with `success = true`. -/
theorem gather_all_failing_empty
    (backend : String → String → Option (List RawPlace))
    (detailsBackend : String → Option RawDetail)
    (plan : SearchPlan)
    (analyzeResp : Option String) (analyzeParse : String → Option PreferenceProfile)
    (planResp : Option String) (planParse : String → Option SearchPlan)
    (persResp : Option String) (persParse : String → Option (List Annot))
    (actResp : Option String) (actParse : String → Option (List ActivitySuggestion))
    (messages : List ChatMessage)
    (hfail : ∀ ty kw, backend ty kw = none) :
    searchLoop backend detailsBackend plan = []
    ∧ (recommendationsEndpoint analyzeResp analyzeParse planResp planParse backend
        detailsBackend persResp persParse actResp actParse messages).places = []
    ∧ (recommendationsEndpoint analyzeResp analyzeParse planResp planParse backend
        detailsBackend persResp persParse actResp actParse messages).success = true := by
  refine ⟨searchLoop_allFail _ _ _ hfail, ?_, rfl⟩
  dsimp only [recommendationsEndpoint]
  rw [searchLoop_allFail _ _ _ hfail, personalize_nil]

/-- Witness for C3: the three-strategy fallback plan of an empty chat,
with an always-erroring place backend. -/
theorem gather_all_failing_empty_witness :
    searchLoop (fun _ _ => none) (fun _ => none)
      (fallbackRecommendations (fallbackAnalysis [])) = []
    ∧ (recommendationsEndpoint none (fun _ => none) none (fun _ => none)
        (fun _ _ => none) (fun _ => none) none (fun _ => none) none (fun _ => none)
        []).places = []
    ∧ (recommendationsEndpoint none (fun _ => none) none (fun _ => none)
        (fun _ _ => none) (fun _ => none) none (fun _ => none) none (fun _ => none)
        []).success = true :=
  gather_all_failing_empty (fun _ _ => none) (fun _ => none)
    (fallbackRecommendations (fallbackAnalysis [])) none (fun _ => none) none
    (fun _ => none) none (fun _ => none) none (fun _ => none) []
    (fun _ _ => rfl)

theorem runStrategies_eq_join (call : SearchStrategy → Option (List EnrichedPlace))
    (l : List SearchStrategy) :
    runStrategies call l = (l.map (fun s => (call s).getD [])).flatten := by
  induction l with
  | nil => rfl
  | cons s rest ih =>
    simp only [runStrategies, List.map_cons, List.flatten_cons, ih]
    cases call s <;> rfl

theorem count_join_eq (x : EnrichedPlace) (L : List (List EnrichedPlace)) :
    L.flatten.count x = (L.map (fun l => l.count x)).sum := by
  induction L with
  | nil => rfl
  | cons a t ih => simp [List.count_append, ih]

/-- C6 (amended): the aggregate is the concatenation of the per-strategy
results in strategy order with no cross-strategy deduplication (counts
add up across strategies); each strategy's contribution is capped at
`floor(20 / numberOfStrategies)` whenever that cap is at least 1 — with
more than 20 strategies the cap computes to 0, which the code treats as
"no cap". -/
theorem gather_concat_and_cap (backend : String → String → Option (List RawPlace))
    (detailsBackend : String → Option RawDetail) (plan : SearchPlan) :
    searchLoop backend detailsBackend plan =
      (plan.searchStrategies.map (strategyResults backend detailsBackend plan)).flatten
    ∧ (∀ s : SearchStrategy, 1 ≤ 20 / plan.searchStrategies.length →
        (strategyResults backend detailsBackend plan s).length
          ≤ 20 / plan.searchStrategies.length)
    ∧ (∀ x : EnrichedPlace,
        (searchLoop backend detailsBackend plan).count x =
          ((plan.searchStrategies.map (strategyResults backend detailsBackend plan)).map
            (fun l => l.count x)).sum) := by
  have hjoin : searchLoop backend detailsBackend plan =
      (plan.searchStrategies.map (strategyResults backend detailsBackend plan)).flatten :=
    runStrategies_eq_join _ _
  refine ⟨hjoin, ?_, ?_⟩
  · intro s hcap
    dsimp only [strategyResults, searchNearbyPlaces]
    cases hb : backend s.value (String.intercalate " " plan.keywords) with
    | none => simp
    | some results =>
      dsimp only [Option.getD_some]
      rw [List.length_map]
      split
      · next h =>
        rw [List.length_take]
        omega
      · next h =>
        simp only [Bool.and_eq_true, decide_eq_true_eq, not_and, not_lt] at h
        omega
  · intro x
    rw [hjoin, count_join_eq]

/-- A plan of 21 identical strategies: `floor(20/21) = 0`. -/
def capPlan : SearchPlan :=
  { searchStrategies := List.replicate 21 ⟨"place_type", "restaurant", 1, "d"⟩
    keywords := []
    filters := ⟨"1-3", "3.5+", true⟩
    recommendationReason := ""
    alternativeOptions := []
    tips := [] }

/-- A raw place with every optional field absent. -/
def bareRawPlace : RawPlace :=
  ⟨none, none, none, none, none, none, none, none, none, none⟩

/-- Nearby-search backend returning one bare place for every request. -/
def onePlaceBackend : String → String → Option (List RawPlace) :=
  fun _ _ => some [bareRawPlace]

/-- Details backend that always errors. -/
def noDetailsBackend : String → Option RawDetail :=
  fun _ => none

/-- Counterexample to C6 as stated: with 21 strategies the claimed cap
`floor(20/21) = 0` is not enforced — a strategy still contributes one
result, because `if (maxResults && ...)` treats the cap 0 as falsy. -/
theorem gather_cap_counterexample :
    20 / capPlan.searchStrategies.length = 0
    ∧ (strategyResults onePlaceBackend noDetailsBackend capPlan
        ⟨"place_type", "restaurant", 1, "d"⟩).length = 1
    ∧ ¬((strategyResults onePlaceBackend noDetailsBackend capPlan
        ⟨"place_type", "restaurant", 1, "d"⟩).length
          ≤ 20 / capPlan.searchStrategies.length) := by
  refine ⟨by decide, ?_, ?_⟩ <;>
    simp [strategyResults, searchNearbyPlaces, onePlaceBackend, capPlan, noDetailsBackend]

/-- A plan of two strategies: cap `floor(20/2) = 10` is enforced. -/
def twoStratPlan : SearchPlan :=
  { searchStrategies :=
      [⟨"place_type", "restaurant", 1, "a"⟩, ⟨"place_type", "museum", 2, "b"⟩]
    keywords := []
    filters := ⟨"1-3", "3.5+", true⟩
    recommendationReason := ""
    alternativeOptions := []
    tips := [] }

/-- Nearby-search backend returning twelve bare places for every request. -/
def twelvePlaceBackend : String → String → Option (List RawPlace) :=
  fun _ _ => some (List.replicate 12 bareRawPlace)

/-- Witness for C6 (amended) where the cap clause is non-vacuous: with 2
strategies and 12 raw results the contribution is at most 10. -/
theorem gather_concat_and_cap_witness :
    (strategyResults twelvePlaceBackend noDetailsBackend twoStratPlan
      ⟨"place_type", "restaurant", 1, "a"⟩).length
        ≤ 20 / twoStratPlan.searchStrategies.length :=
  (gather_concat_and_cap twelvePlaceBackend noDetailsBackend twoStratPlan).2.1
    ⟨"place_type", "restaurant", 1, "a"⟩ (by decide)

/-- The `fields` list of the place-details request (places.js, inside
`getPlaceDetails`).  `place_id` is not requested. -/
def detailsRequestFields : List String :=
  ["name", "formatted_address", "geometry", "rating", "user_ratings_total",
   "price_level", "photos", "opening_hours", "types", "website",
   "formatted_phone_number", "reviews"]

/-- A raw place carrying an id and some optional fields absent. -/
def sampleRawPlace : RawPlace :=
  { place_id := some "pid1"
    name := some "Cafe One"
    vicinity := some "Main St"
    geometry := none
    rating := none
    user_ratings_total := none
    price_level := none
    types := none
    photos := none
    business_status := none }

/-- A detail record as returned by a backend that honors the code's
field mask: `place_id` was not requested, hence is absent. -/
def maskedDetail : RawDetail :=
  { place_id := none
    name := some "Cafe One"
    formatted_address := some "1 Main St"
    geometry := none
    rating := some 4
    user_ratings_total := some 10
    price_level := some 2
    types := some ["cafe"]
    photos := some []
    opening_hours := none
    website := none
    formatted_phone_number := none
    reviews := some []
    business_status := some "OPERATIONAL" }

/-- Details backend that always succeeds with a mask-honoring record. -/
def maskedDetailsBackend : String → Option RawDetail :=
  fun _ => some maskedDetail

/-- Counterexample to C4 as stated: the details request omits `place_id`
from its field list, so a backend honoring that mask returns a record
without one, and the `{...place, ...details}` spread then overwrites the
candidate's `place_id` with the absent one — on a successful fetch the
output's `place_id` does not equal the input's. -/
theorem enricher_place_id_counterexample :
    listIncludes detailsRequestFields "place_id" = false
    ∧ sampleRawPlace.place_id = some "pid1"
    ∧ (enhancePlaceDetails maskedDetailsBackend sampleRawPlace).place_id = none
    ∧ ([sampleRawPlace].map (enhancePlaceDetails maskedDetailsBackend)).map
        (fun e => e.place_id) ≠ [sampleRawPlace].map (fun c => c.place_id) := by
  exact ⟨by decide, rfl, by decide, by decide⟩

/-- C4 (amended): enrichment is length-preserving; a failing detail
fetch (or an absent id) degrades exactly that candidate to the basic
projection, which preserves `place_id` and has the defaults absent
rating → 0, absent price_level → null, absent types/photos → empty,
absent business_status → "OPERATIONAL"; on a successful fetch the merged
element's `place_id` is the detail record's `place_id` — not
necessarily the input's, since the code's details request omits
`place_id` from its field list. -/
theorem enricher_identity_and_defaults
    (detailsBackend : String → Option RawDetail) (candidates : List RawPlace) :
    (candidates.map (enhancePlaceDetails detailsBackend)).length = candidates.length
    ∧ (∀ c : RawPlace, ∀ pid, c.place_id = some pid → pid.isEmpty = false →
        ∀ d, detailsBackend pid = some d →
        enhancePlaceDetails detailsBackend c = mergePlaceDetails c (formatPlaceDetails d)
        ∧ (enhancePlaceDetails detailsBackend c).place_id = d.place_id)
    ∧ (∀ c : RawPlace, ∀ pid, c.place_id = some pid → pid.isEmpty = false →
        detailsBackend pid = none →
        enhancePlaceDetails detailsBackend c = formatBasicPlace c)
    ∧ (∀ c : RawPlace, c.place_id = none →
        enhancePlaceDetails detailsBackend c = formatBasicPlace c)
    ∧ (∀ c : RawPlace, (formatBasicPlace c).place_id = c.place_id)
    ∧ (∀ c : RawPlace, c.rating = none → (formatBasicPlace c).rating = 0)
    ∧ (∀ c : RawPlace, c.price_level = none → (formatBasicPlace c).price_level = none)
    ∧ (∀ c : RawPlace, c.types = none → (formatBasicPlace c).types = [])
    ∧ (∀ c : RawPlace, c.photos = none → (formatBasicPlace c).photos = [])
    ∧ (∀ c : RawPlace, c.business_status = none →
        (formatBasicPlace c).business_status = "OPERATIONAL") := by
  refine ⟨by simp, ?_, ?_, ?_, ?_, ?_, ?_, ?_, ?_, ?_⟩
  · intro c pid hid hne d hd
    have he : enhancePlaceDetails detailsBackend c
        = mergePlaceDetails c (formatPlaceDetails d) := by
      simp [enhancePlaceDetails, getPlaceDetails, hid, hne, hd]
    refine ⟨he, ?_⟩
    rw [he]
    rfl
  · intro c pid hid hne hfail
    simp [enhancePlaceDetails, getPlaceDetails, hid, hne, hfail]
  · intro c h
    simp [enhancePlaceDetails, h]
  · intro c
    rfl
  · intro c h
    simp [formatBasicPlace, numOrZero, h]
  · intro c h
    simp [formatBasicPlace, numOrNull, h]
  · intro c h
    simp [formatBasicPlace, h]
  · intro c h
    simp [formatBasicPlace, h]
  · intro c h
    simp [formatBasicPlace, strOrDefault, h]

/-- Witness for C4 (amended), exercising the success path: the merged
element takes the detail record's (absent) `place_id`. -/
theorem enricher_identity_and_defaults_witness :
    enhancePlaceDetails maskedDetailsBackend sampleRawPlace
      = mergePlaceDetails sampleRawPlace (formatPlaceDetails maskedDetail)
    ∧ (enhancePlaceDetails maskedDetailsBackend sampleRawPlace).place_id
      = maskedDetail.place_id :=
  (enricher_identity_and_defaults maskedDetailsBackend [sampleRawPlace]).2.1
    sampleRawPlace "pid1" rfl (by decide) maskedDetail rfl

theorem base_basicPersonalized (place : EnrichedPlace) :
    (basicPersonalized place).base = place :=
  rfl

theorem base_mergeAnnot (anns : List Annot) (place : EnrichedPlace) :
    (mergeAnnot anns place).base = place :=
  rfl

theorem mergeAnnot_no_match (anns : List Annot) (place : EnrichedPlace)
    (h : anns.find? (fun a => a.place_id == place.place_id) = none) :
    mergeAnnot anns place = basicPersonalized place := by
  simp [mergeAnnot, basicPersonalized, h, strTruthy, scoreOrHalf, strOrDefault]

/-- C5: the Personalizer preserves length and order (each output's base
is exactly the corresponding input), every element carries a
`matchScore`, and any candidate without a matching annotation —
including every candidate when the backend call fails, and candidates
outside the 5-element prompt window when the annotations only name
ids from that window — receives the defaults
(`personalizedDescription = name`, `matchScore = 0.5`,
`highlights = []`, `groupAppeal = "Good option for groups"`). -/
theorem personalizer_preserves_and_defaults
    (resp : Option String) (parse : String → Option (List Annot))
    (places : List EnrichedPlace) (analysis : PreferenceProfile) :
    (personalizePlaceDescriptions resp parse places analysis).length = places.length
    ∧ (personalizePlaceDescriptions resp parse places analysis).map (fun q => q.base)
        = places
    ∧ (resp = none → personalizePlaceDescriptions resp parse places analysis
        = places.map basicPersonalized)
    ∧ (∀ t, resp = some t → parse t = none →
        personalizePlaceDescriptions resp parse places analysis
          = places.map basicPersonalized)
    ∧ (∀ t anns, resp = some t → parse t = some anns →
        personalizePlaceDescriptions resp parse places analysis
          = places.map (mergeAnnot anns))
    ∧ (∀ anns place, anns.find? (fun a => a.place_id == place.place_id) = none →
        mergeAnnot anns place = basicPersonalized place)
    ∧ (∀ t anns, resp = some t → parse t = some anns →
        (∀ a ∈ anns, ∃ q ∈ places.take 5, a.place_id = q.place_id) →
        ∀ i, ∀ hi : i < places.length, 5 ≤ i →
        (∀ q ∈ places.take 5, q.place_id ≠ (places.get ⟨i, hi⟩).place_id) →
        mergeAnnot anns (places.get ⟨i, hi⟩)
          = basicPersonalized (places.get ⟨i, hi⟩)) := by
  refine ⟨?_, ?_, ?_, ?_, ?_, ?_, ?_⟩
  · rcases resp with _ | t
    · simp [personalizePlaceDescriptions]
    · dsimp only [personalizePlaceDescriptions]
      rcases parse t with _ | anns <;> simp
  · have hb : ((fun (q : PersonalizedPlace) => q.base) ∘ basicPersonalized)
        = fun place => place := rfl
    rcases resp with _ | t
    · dsimp only [personalizePlaceDescriptions]
      rw [List.map_map, hb, List.map_id']
    · dsimp only [personalizePlaceDescriptions]
      rcases parse t with _ | anns
      · rw [List.map_map, hb, List.map_id']
      · have hm : ((fun (q : PersonalizedPlace) => q.base) ∘ mergeAnnot anns)
            = fun place => place := rfl
        rw [List.map_map, hm, List.map_id']
  · intro h
    subst h
    rfl
  · intro t ht hp
    subst ht
    dsimp only [personalizePlaceDescriptions]
    rw [hp]
  · intro t anns ht hp
    subst ht
    dsimp only [personalizePlaceDescriptions]
    rw [hp]
  · intro anns place h
    exact mergeAnnot_no_match anns place h
  · intro t anns _ _ hscope i hi _ hdistinct
    apply mergeAnnot_no_match
    rcases hfind : anns.find? (fun a => a.place_id == (places.get ⟨i, hi⟩).place_id)
      with _ | a
    · exact hfind
    · exfalso
      have hmem := List.mem_of_find?_eq_some hfind
      have heq := List.find?_some hfind
      simp only [beq_iff_eq] at heq
      obtain ⟨q, hq, he⟩ := hscope a hmem
      exact hdistinct q hq (he.symm.trans heq)

/-- The basic projection of `sampleRawPlace`, used as a concrete
enriched place. -/
def basicEnriched : EnrichedPlace :=
  formatBasicPlace sampleRawPlace

/-- The annotation parser of a failing personalization call. -/
def noAnnParse : String → Option (List Annot) :=
  fun _ => none

/-- Witness for C5 at a concrete failing personalization call on a
one-element candidate list. -/
theorem personalizer_preserves_and_defaults_witness :
    (personalizePlaceDescriptions none noAnnParse [basicEnriched]
        (fallbackAnalysis [])).length = [basicEnriched].length
    ∧ (personalizePlaceDescriptions none noAnnParse [basicEnriched]
        (fallbackAnalysis [])).map (fun q => q.base) = [basicEnriched]
    ∧ ((none : Option String) = none →
        personalizePlaceDescriptions none noAnnParse [basicEnriched]
          (fallbackAnalysis []) = [basicEnriched].map basicPersonalized)
    ∧ (∀ t, (none : Option String) = some t → noAnnParse t = none →
        personalizePlaceDescriptions none noAnnParse [basicEnriched]
          (fallbackAnalysis []) = [basicEnriched].map basicPersonalized)
    ∧ (∀ t anns, (none : Option String) = some t → noAnnParse t = some anns →
        personalizePlaceDescriptions none noAnnParse [basicEnriched]
          (fallbackAnalysis []) = [basicEnriched].map (mergeAnnot anns))
    ∧ (∀ anns place, anns.find? (fun a => a.place_id == place.place_id) = none →
        mergeAnnot anns place = basicPersonalized place)
    ∧ (∀ t anns, (none : Option String) = some t → noAnnParse t = some anns →
        (∀ a ∈ anns, ∃ q ∈ [basicEnriched].take 5, a.place_id = q.place_id) →
        ∀ i, ∀ hi : i < [basicEnriched].length, 5 ≤ i →
        (∀ q ∈ [basicEnriched].take 5,
          q.place_id ≠ ([basicEnriched].get ⟨i, hi⟩).place_id) →
        mergeAnnot anns ([basicEnriched].get ⟨i, hi⟩)
          = basicPersonalized ([basicEnriched].get ⟨i, hi⟩)) :=
  personalizer_preserves_and_defaults none noAnnParse [basicEnriched]
    (fallbackAnalysis [])

theorem scoreOrHalf_ne_zero (x : Option Rat) : scoreOrHalf x ≠ 0 := by
  rcases x with _ | v
  · norm_num [scoreOrHalf]
  · dsimp only [scoreOrHalf]
    split
    · norm_num
    · assumption

/-- C10: a falsy backend-provided `matchScore` — in particular an
explicit 0 — is coerced to 0.5 by `||`, and no output of the
Personalizer ever has `matchScore` exactly 0. -/
theorem personalizer_score_never_zero
    (resp : Option String) (parse : String → Option (List Annot))
    (places : List EnrichedPlace) (analysis : PreferenceProfile) :
    (∀ po ∈ personalizePlaceDescriptions resp parse places analysis,
        po.matchScore ≠ 0)
    ∧ (∀ anns place ann, anns.find? (fun a => a.place_id == place.place_id) = some ann →
        ann.matchScore = some 0 →
        (mergeAnnot anns place).matchScore = (0.5 : Rat))
    ∧ (∀ t anns, resp = some t → parse t = some anns →
        personalizePlaceDescriptions resp parse places analysis
          = places.map (mergeAnnot anns)) := by
  refine ⟨?_, ?_, ?_⟩
  · intro po hpo
    rcases resp with _ | t
    · simp only [personalizePlaceDescriptions, List.mem_map] at hpo
      obtain ⟨place, _, rfl⟩ := hpo
      norm_num [basicPersonalized]
    · dsimp only [personalizePlaceDescriptions] at hpo
      rcases hp : parse t with _ | anns <;> rw [hp] at hpo <;>
        simp only [List.mem_map] at hpo
      · obtain ⟨place, _, rfl⟩ := hpo
        norm_num [basicPersonalized]
      · obtain ⟨place, _, rfl⟩ := hpo
        exact scoreOrHalf_ne_zero _
  · intro anns place ann hfind hscore
    dsimp only [mergeAnnot]
    rw [hfind]
    simp [hscore, scoreOrHalf]
  · intro t anns ht hp
    subst ht
    dsimp only [personalizePlaceDescriptions]
    rw [hp]

/-- An annotation explicitly assigning `matchScore = 0` to place
`"pid1"`. -/
def zeroScoreAnnot : Annot :=
  { place_id := some "pid1"
    personalizedDescription := some "A quiet cafe"
    matchScore := some 0
    highlights := none
    groupAppeal := none }

/-- Witness for C10: the backend assigns `matchScore = 0`, the output
carries 0.5. -/
theorem personalizer_score_never_zero_witness :
    (mergeAnnot [zeroScoreAnnot] basicEnriched).matchScore = (0.5 : Rat) :=
  (personalizer_score_never_zero (some "resp")
      (fun _ => some [zeroScoreAnnot]) [basicEnriched]
      (fallbackAnalysis [])).2.1
    [zeroScoreAnnot] basicEnriched zeroScoreAnnot (by rfl) rfl

end PlanOutings
